import Mathlib

/-!
Verification of the JetSupport engine-wash dashboard core computations.

The numeric core of the dashboard (`jetsupport_dashboard.py`) is embedded
over the rationals: the Python code works in double-precision floats with
no intermediate rounding, and every specified property is an exact
algebraic identity, so ℚ is the faithful exact-arithmetic model.
-/

namespace JetSupport

/-- Operational and model parameters of one computation pass
(sidebar inputs plus the fixed fuel-flow constant of the script). -/
structure Params where
  degradation_rate : ℚ
  recovery_factor : ℚ
  flights_per_year : ℕ
  fuel_flow : ℚ
  flight_time : ℚ
  fuel_price : ℚ
  wash_cost : ℚ
deriving DecidableEq

/-- Baseline (no-wash) fuel-burn loop, lines 275–279 of
`jetsupport_dashboard.py`: state `(deg, fuel_burn)` after `n` flights.
Each flight first adds `1 + deg/100` to `fuel_burn`, then increments
`deg` by the degradation rate; no recovery ever applies. -/
def burnLoop (dr : ℚ) : ℕ → ℚ × ℚ
  | 0 => (0, 0)
  | n + 1 =>
      let s := burnLoop dr n
      (s.1 + dr, s.2 + (1 + s.1 / 100))

/-- Per-interval fuel-burn loop, lines 284–290 of
`jetsupport_dashboard.py`: same as `burnLoop` but after incrementing
`deg` the recovery `deg *= (1 - recovery_factor)` fires whenever
`(i + 1) % iv == 0`. -/
def washLoop (dr rf : ℚ) (iv : ℕ) : ℕ → ℚ × ℚ
  | 0 => (0, 0)
  | n + 1 =>
      let s := washLoop dr rf iv n
      let d := s.1 + dr
      (if (n + 1) % iv = 0 then d * (1 - rf) else d, s.2 + (1 + s.1 / 100))

/-- The `baseline_fuel_kg` value (line 280): fuel mass of the no-wash year. -/
def baseline_fuel_kg (p : Params) : ℚ :=
  p.fuel_flow * p.flight_time * 3600 * (burnLoop p.degradation_rate p.flights_per_year).2

/-- The `baseline_cost` value (line 281). -/
def baseline_cost (p : Params) : ℚ :=
  baseline_fuel_kg p * p.fuel_price

/-- The `fuel_kg` value for a candidate interval (line 291). -/
def fuel_kg (p : Params) (iv : ℕ) : ℚ :=
  p.fuel_flow * p.flight_time * 3600 *
    (washLoop p.degradation_rate p.recovery_factor iv p.flights_per_year).2

/-- The `fuel_cost` value for a candidate interval (line 292). -/
def fuel_cost (p : Params) (iv : ℕ) : ℚ :=
  fuel_kg p iv * p.fuel_price

/-- The wash count `n_washes = flights_per_year // iv` (line 293), integer floor
division on naturals. -/
def n_washes (p : Params) (iv : ℕ) : ℕ :=
  p.flights_per_year / iv

/-- The cost `total_wash_cost = n_washes * wash_cost` (line 294). -/
def total_wash_cost (p : Params) (iv : ℕ) : ℚ :=
  (n_washes p iv : ℚ) * p.wash_cost

/-- The saving `net = baseline_cost - (fuel_cost + total_wash_cost)` (line 295). -/
def net_saving (p : Params) (iv : ℕ) : ℚ :=
  baseline_cost p - (fuel_cost p iv + total_wash_cost p iv)

/-- The candidate sweep `list(range(20, max_interval + 1, 10))`
(line 272). -/
def intervals (max_interval : ℕ) : List ℕ :=
  List.range' 20 ((max_interval + 1 - 20 + 9) / 10) 10

/-- The `net_savings` list accumulated by the sweep loop
(lines 283–298), in ascending-interval order. -/
def net_savings (p : Params) (max_interval : ℕ) : List ℚ :=
  (intervals max_interval).map (net_saving p)

/-- First index of the maximum of a list: the behaviour of
`np.argmax` (line 300) on a non-empty list. -/
def argmax : List ℚ → ℕ
  | [] => 0
  | x :: xs => if ∀ y ∈ xs, y ≤ x then 0 else argmax xs + 1

/-- The selected index `opt_idx = int(np.argmax(net_savings))` (line 300). -/
def opt_idx (p : Params) (max_interval : ℕ) : ℕ :=
  argmax (net_savings p max_interval)

/-- The selected interval `opt_interval = intervals[opt_idx]` (line 301). -/
def opt_interval (p : Params) (max_interval : ℕ) : ℕ :=
  (intervals max_interval).getD (opt_idx p max_interval) 0

/-- The ΔSFC from fuel flows (line 206 of the main script and the fleet
page's per-row column): `(flow_pre - flow_post) / flow_pre * 100`. -/
def dSFC_flows (flow_pre flow_post : ℚ) : ℚ :=
  (flow_pre - flow_post) / flow_pre * 100

/-- The ΔSFC from the EGT heuristic (line 212):
`0.08 * (EGT_before - EGT_after)`. -/
def dSFC_egt (egt_before egt_after : ℚ) : ℚ :=
  (8 / 100) * (egt_before - egt_after)

/-- Fixed-interval policy of the trajectory section (line 331):
`interval_two = max(flights_per_year // 2, 1)`. -/
def interval_two (p : Params) : ℕ :=
  max (p.flights_per_year / 2) 1

/-- No-wash branch of the trajectory loop (lines 333–339, the
`eff_no` / `deg_no` state): after `c` iterations, the pair of the
recorded efficiency list and the degradation accumulator.  Each
iteration appends `100 - deg` BEFORE incrementing `deg`. -/
def effNoLoop (dr : ℚ) : ℕ → List ℚ × ℚ
  | 0 => ([], 0)
  | c + 1 =>
      let s := effNoLoop dr c
      (s.1 ++ [100 - s.2], s.2 + dr)

/-- Washed branch of the trajectory loop (lines 333–343, the
`eff_two` / `deg_two` and `eff_opt` / `deg_opt` states): as
`effNoLoop`, but recovery `deg *= (1 - recovery_factor)` fires when
`(c + 1) % iv == 0`. -/
def effWashLoop (dr rf : ℚ) (iv : ℕ) : ℕ → List ℚ × ℚ
  | 0 => ([], 0)
  | c + 1 =>
      let s := effWashLoop dr rf iv c
      (s.1 ++ [100 - s.2],
       if (c + 1) % iv = 0 then (s.2 + dr) * (1 - rf) else s.2 + dr)

/-- The `eff_no` trajectory (no-wash policy). -/
def eff_no (p : Params) : List ℚ :=
  (effNoLoop p.degradation_rate p.flights_per_year).1

/-- The `eff_two` trajectory (fixed `interval_two` policy). -/
def eff_two (p : Params) : List ℚ :=
  (effWashLoop p.degradation_rate p.recovery_factor (interval_two p) p.flights_per_year).1

/-- The `eff_opt` trajectory (optimized-interval policy). -/
def eff_opt (p : Params) (max_interval : ℕ) : List ℚ :=
  (effWashLoop p.degradation_rate p.recovery_factor
    (opt_interval p max_interval) p.flights_per_year).1

/-- Outcome of the fleet page's early validation
(`src/pages/Fleet_Heatmap.py`): either the page stops with an error
message (`st.error` followed by `st.stop`), or it proceeds to the
aggregation/heatmap section. -/
inductive FleetOutcome where
  | failed (msg : String)
  | proceed
deriving DecidableEq

/-- Column validation of the fleet page (lines 44–55 of
`Fleet_Heatmap.py`), over the uploaded dataset's column names:
first `Aircraft_ID`/`Month` are required; then a `ΔSFC` column is
derived from `Fuel_Flow_Pre`/`Fuel_Flow_Post` when absent; finally
`ΔSFC` must exist or the page stops.  All later computation
(month parsing, aggregation, heatmap, metrics) is reached only on
`proceed`. -/
def fleetValidate (cols : List String) : FleetOutcome :=
  if "Aircraft_ID" ∈ cols ∧ "Month" ∈ cols then
    let cols2 :=
      if "ΔSFC" ∉ cols ∧ "Fuel_Flow_Pre" ∈ cols ∧ "Fuel_Flow_Post" ∈ cols then
        cols ++ ["ΔSFC"]
      else cols
    if "ΔSFC" ∈ cols2 then FleetOutcome.proceed
    else FleetOutcome.failed "Dataset must include ΔSFC or (Fuel_Flow_Pre & Fuel_Flow_Post) to compute it."
  else FleetOutcome.failed "Dataset must include columns: Aircraft_ID and Month."

/-- An uploaded QAR dataset of the main dashboard, reduced to the two
columns the ΔSFC derivation reads: each is present (`some` values)
or absent (`none`). -/
structure QarData where
  pre : Option (List ℚ)
  post : Option (List ℚ)
deriving DecidableEq

/-- Arithmetic mean of a column, as `pandas.Series.mean` on a
non-empty numeric column. -/
def listMean (l : List ℚ) : ℚ :=
  l.sum / l.length

/-- The `dSFC` computed in QAR mode from an uploaded dataset
(lines 193–199): when both fuel-flow columns are present, the mean of
the row-wise `(pre - post) / pre * 100`; otherwise the constant 1.6. -/
def qar_dSFC (d : QarData) : ℚ :=
  match d.pre, d.post with
  | some pre, some post =>
      listMean ((pre.zip post).map fun q => (q.1 - q.2) / q.1 * 100)
  | _, _ => 8 / 5

/-- The mean `fuel_flow_pre = qar_df.get("Fuel_Flow_Pre", pd.Series([1250])).mean()`
(line 200): the mean of the column when present, else of the
default single-row series `[1250]`. -/
def qar_fuel_flow_pre (d : QarData) : ℚ :=
  listMean (d.pre.getD [1250])

/-- The mean `fuel_flow_post = qar_df.get("Fuel_Flow_Post", pd.Series([1230])).mean()`
(line 201), default series `[1230]`. -/
def qar_fuel_flow_post (d : QarData) : ℚ :=
  listMean (d.post.getD [1230])

/-- Concrete parameter record used by the witness instances: the
dashboard's default sidebar values with a small flight count. -/
def pW : Params :=
  { degradation_rate := 12 / 1000
    recovery_factor := 92 / 100
    flights_per_year := 25
    fuel_flow := 521 / 1000
    flight_time := 5 / 2
    fuel_price := 8 / 10
    wash_cost := 4000 }

/-- Parameter record with zero fuel-side prices and a positive wash
cost: washing cannot pay for itself, so net savings go negative. -/
def pNeg : Params :=
  { degradation_rate := 0
    recovery_factor := 1
    flights_per_year := 20
    fuel_flow := 0
    flight_time := 0
    fuel_price := 0
    wash_cost := 4000 }

/-- The `argmax` of a non-empty list is a valid index. -/
theorem argmax_lt_length (l : List ℚ) (h : l ≠ []) : argmax l < l.length := by
  induction l with
  | nil => exact absurd rfl h
  | cons x xs ih =>
    by_cases hall : ∀ y ∈ xs, y ≤ x
    · simp only [argmax, List.length_cons]
      rw [if_pos hall]
      exact Nat.succ_pos _
    · have hxs : xs ≠ [] := by
        intro he
        exact hall (by simp [he])
      simp only [argmax, List.length_cons]
      rw [if_neg hall]
      exact Nat.succ_lt_succ (ih hxs)

/-- The value at `argmax` dominates every element of the list. -/
theorem le_getD_argmax : ∀ (l : List ℚ), ∀ y ∈ l, y ≤ l.getD (argmax l) 0 := by
  intro l
  induction l with
  | nil => intro y hy; exact absurd hy (List.not_mem_nil y)
  | cons x xs ih =>
    intro y hy
    by_cases hall : ∀ z ∈ xs, z ≤ x
    · have hx : (x :: xs).getD (argmax (x :: xs)) 0 = x := by
        simp only [argmax]
        rw [if_pos hall]
        rfl
      rw [hx]
      rcases List.mem_cons.mp hy with h | h
      · exact le_of_eq h
      · exact hall y h
    · have hx : (x :: xs).getD (argmax (x :: xs)) 0 = xs.getD (argmax xs) 0 := by
        simp only [argmax]
        rw [if_neg hall]
        rfl
      rw [hx]
      push_neg at hall
      obtain ⟨z, hz, hxz⟩ := hall
      rcases List.mem_cons.mp hy with h | h
      · exact le_of_lt (lt_of_lt_of_le (h ▸ hxz) (ih z hz))
      · exact ih y h

/-- Every index strictly before `argmax` holds a strictly smaller value:
`argmax` is the FIRST index attaining the maximum, as `np.argmax`. -/
theorem getD_lt_of_lt_argmax :
    ∀ (l : List ℚ) (j : ℕ), j < argmax l → l.getD j 0 < l.getD (argmax l) 0 := by
  intro l
  induction l with
  | nil => intro j hj; simp [argmax] at hj
  | cons x xs ih =>
    intro j hj
    by_cases hall : ∀ z ∈ xs, z ≤ x
    · simp only [argmax] at hj
      rw [if_pos hall] at hj
      exact absurd hj (Nat.not_lt_zero j)
    · have harg : argmax (x :: xs) = argmax xs + 1 := by
        simp only [argmax]
        rw [if_neg hall]
      have hx : (x :: xs).getD (argmax (x :: xs)) 0 = xs.getD (argmax xs) 0 := by
        rw [harg]
        rfl
      rw [hx]
      push_neg at hall
      obtain ⟨z, hz, hxz⟩ := hall
      match j with
      | 0 =>
          exact lt_of_lt_of_le hxz (le_getD_argmax xs z hz)
      | j + 1 =>
          rw [harg] at hj
          exact ih j (Nat.lt_of_succ_lt_succ hj)

/-- The `getD` of a mapped interval list at an in-range index. -/
theorem getD_map_intervals (l : List ℕ) (f : ℕ → ℚ) (i : ℕ) (h : i < l.length) :
    (l.map f).getD i 0 = f (l.getD i 0) := by
  rw [List.getD_eq_getElem (l.map f) 0 (by simpa using h),
    List.getD_eq_getElem l 0 h, List.getElem_map]

/-- The net saving of the selected interval is the entry of the
`net_savings` list at the selected index. -/
theorem net_saving_opt_interval (p : Params) (m : ℕ) (h : intervals m ≠ []) :
    net_saving p (opt_interval p m) =
      (net_savings p m).getD (opt_idx p m) 0 := by
  have hne : net_savings p m ≠ [] := by
    intro he
    exact h (List.map_eq_nil_iff.mp he)
  have hidx : opt_idx p m < (intervals m).length := by
    have hl := argmax_lt_length (net_savings p m) hne
    rwa [net_savings, List.length_map] at hl
  exact (getD_map_intervals (intervals m) (net_saving p) (opt_idx p m) hidx).symm

/-- C1: on a non-empty candidate sweep, the selected interval's
`net_saving` is ≥ the `net_saving` of every evaluated candidate, and
every candidate strictly before the selected index in the
ascending-interval sweep has strictly smaller `net_saving` (the first
maximum wins on ties); the sweep itself is strictly ascending, so the
first maximal index is the smallest such candidate interval. -/
theorem optimizer_selects_first_max (p : Params) (m : ℕ) (h : intervals m ≠ []) :
    (∀ iv ∈ intervals m, net_saving p iv ≤ net_saving p (opt_interval p m)) ∧
    (∀ j, j < opt_idx p m →
      (net_savings p m).getD j 0 < (net_savings p m).getD (opt_idx p m) 0) ∧
    (intervals m).Pairwise (· < ·) := by
  refine ⟨fun iv hiv => ?_, fun j hj => ?_, ?_⟩
  · have hmem : net_saving p iv ∈ net_savings p m :=
      List.mem_map_of_mem (net_saving p) hiv
    rw [net_saving_opt_interval p m h]
    exact le_getD_argmax (net_savings p m) _ hmem
  · exact getD_lt_of_lt_argmax (net_savings p m) j hj
  · exact List.pairwise_lt_range' 20 _ 10 (by norm_num)

/-- Witness for C1 at the concrete default parameters and
`max_interval = 40` (a three-candidate sweep). -/
theorem optimizer_selects_first_max_witness :
    intervals 40 ≠ [] ∧
    ((∀ iv ∈ intervals 40, net_saving pW iv ≤ net_saving pW (opt_interval pW 40)) ∧
     (∀ j, j < opt_idx pW 40 →
       (net_savings pW 40).getD j 0 < (net_savings pW 40).getD (opt_idx pW 40) 0) ∧
     (intervals 40).Pairwise (· < ·)) :=
  ⟨by decide, optimizer_selects_first_max pW 40 (by decide)⟩

/-- With a zero degradation rate the baseline loop burns exactly one
unit per flight and the accumulator stays zero. -/
theorem burnLoop_zero_rate : ∀ n, burnLoop 0 n = (0, (n : ℚ)) := by
  intro n
  induction n with
  | zero => rfl
  | succ k ih =>
    simp only [burnLoop, ih, Prod.mk.injEq]
    constructor
    · norm_num
    · push_cast
      norm_num

/-- With a zero degradation rate the washed loop also burns exactly one
unit per flight: recovery multiplies a zero accumulator. -/
theorem washLoop_zero_rate (rf : ℚ) (iv : ℕ) :
    ∀ n, washLoop 0 rf iv n = (0, (n : ℚ)) := by
  intro n
  induction n with
  | zero => rfl
  | succ k ih =>
    simp only [washLoop, ih, Prod.mk.injEq]
    constructor
    · by_cases hc : (k + 1) % iv = 0 <;> simp [hc]
    · push_cast
      norm_num

/-- C2: every candidate evaluation of the sweep satisfies the exact
formulas `fuel_kg = base_fuel_flow × flight_duration_hr × 3600 ×
cumulative_burn`, `fuel_cost = fuel_kg × fuel_price`, `n_washes =
flights_per_year // iv` (floor division), `total_wash_cost = n_washes ×
wash_cost`, `net_saving = baseline_cost − (fuel_cost +
total_wash_cost)` with `baseline_cost` the no-wash simulator's cost;
and `net_saving` is not clamped: it is negative at `pNeg` with
interval 20. -/
theorem sweep_evaluation_formulas (p : Params) (iv : ℕ) :
    fuel_kg p iv = p.fuel_flow * p.flight_time * 3600 *
        (washLoop p.degradation_rate p.recovery_factor iv p.flights_per_year).2 ∧
    fuel_cost p iv = fuel_kg p iv * p.fuel_price ∧
    n_washes p iv = p.flights_per_year / iv ∧
    total_wash_cost p iv = (n_washes p iv : ℚ) * p.wash_cost ∧
    net_saving p iv = baseline_cost p - (fuel_cost p iv + total_wash_cost p iv) ∧
    baseline_cost p =
      p.fuel_flow * p.flight_time * 3600 *
        (burnLoop p.degradation_rate p.flights_per_year).2 * p.fuel_price ∧
    net_saving pNeg 20 < 0 := by
  refine ⟨rfl, rfl, rfl, rfl, rfl, rfl, ?_⟩
  have hb : burnLoop pNeg.degradation_rate pNeg.flights_per_year = (0, (20 : ℚ)) := by
    have h20 : pNeg.flights_per_year = 20 := rfl
    have h0 : pNeg.degradation_rate = 0 := rfl
    rw [h0, h20, burnLoop_zero_rate]
    norm_num
  have hw : washLoop pNeg.degradation_rate pNeg.recovery_factor 20
      pNeg.flights_per_year = (0, (20 : ℚ)) := by
    have h20 : pNeg.flights_per_year = 20 := rfl
    have h0 : pNeg.degradation_rate = 0 := rfl
    rw [h0, h20, washLoop_zero_rate]
    norm_num
  rw [net_saving, baseline_cost, baseline_fuel_kg, fuel_cost, fuel_kg,
    total_wash_cost, hb, hw]
  have hnw : n_washes pNeg 20 = 1 := rfl
  rw [hnw]
  show (pNeg.fuel_flow * pNeg.flight_time * 3600 * (20 : ℚ)) * pNeg.fuel_price -
      (pNeg.fuel_flow * pNeg.flight_time * 3600 * (20 : ℚ) * pNeg.fuel_price +
        ((1 : ℕ) : ℚ) * pNeg.wash_cost) < 0
  have hwc : pNeg.wash_cost = 4000 := rfl
  have hff : pNeg.fuel_flow = 0 := rfl
  rw [hwc, hff]
  norm_num

/-- Below any never-reached interval, the washed loop state equals the
baseline loop state step by step. -/
theorem washLoop_eq_burnLoop (dr rf : ℚ) (iv : ℕ) :
    ∀ n, n < iv → washLoop dr rf iv n = burnLoop dr n := by
  intro n
  induction n with
  | zero => intro _; rfl
  | succ k ih =>
    intro h
    have hk := ih (Nat.lt_of_succ_lt h)
    have hmod : (k + 1) % iv = k + 1 := Nat.mod_eq_of_lt h
    simp only [washLoop, burnLoop, hk, hmod]
    rw [if_neg (Nat.succ_ne_zero k)]

/-- C3: the baseline (no-wash) cumulative burn equals the cumulative
burn of the per-interval loop whenever the interval exceeds the flight
count, i.e. never triggers — the two code paths are one routine
parameterized by interval. -/
theorem baseline_burn_eq_never_triggering_washLoop (dr rf : ℚ) (n iv : ℕ)
    (h : n < iv) :
    (washLoop dr rf iv n).2 = (burnLoop dr n).2 := by
  rw [washLoop_eq_burnLoop dr rf iv n h]

/-- Witness for C3 at `dr = 0.013`, `rf = 0.92`, 4 flights,
interval 7. -/
theorem baseline_burn_eq_never_triggering_washLoop_witness :
    4 < 7 ∧
    (washLoop (13 / 1000) (92 / 100) 7 4).2 = (burnLoop (13 / 1000) 4).2 :=
  ⟨by decide,
   baseline_burn_eq_never_triggering_washLoop (13 / 1000) (92 / 100) 4 7 (by decide)⟩

/-- The degradation accumulator of the baseline loop stays
non-negative when the degradation rate is non-negative. -/
theorem burnLoop_deg_nonneg (dr : ℚ) (h : 0 ≤ dr) :
    ∀ n, 0 ≤ (burnLoop dr n).1 := by
  intro n
  induction n with
  | zero => exact le_refl 0
  | succ k ih =>
    simp only [burnLoop]
    exact add_nonneg ih h

/-- C7: for a non-negative degradation rate, the no-wash simulation's
cumulative burn is monotonically non-decreasing across flights; each
per-flight increment is `1 + deg/100` with `deg ≥ 0` throughout, so it
is non-negative. -/
theorem nowash_cumulative_burn_monotone (dr : ℚ) (h : 0 ≤ dr) :
    (∀ n, 0 ≤ (burnLoop dr n).1) ∧
    (∀ n, (burnLoop dr (n + 1)).2 =
        (burnLoop dr n).2 + (1 + (burnLoop dr n).1 / 100)) ∧
    (∀ n, 0 ≤ 1 + (burnLoop dr n).1 / 100) ∧
    (∀ m n, m ≤ n → (burnLoop dr m).2 ≤ (burnLoop dr n).2) := by
  have hdeg : ∀ n, 0 ≤ (burnLoop dr n).1 := burnLoop_deg_nonneg dr h
  have hinc : ∀ n, 0 ≤ 1 + (burnLoop dr n).1 / 100 := fun n =>
    add_nonneg zero_le_one (div_nonneg (hdeg n) (by norm_num))
  have hstep : ∀ n, (burnLoop dr n).2 ≤ (burnLoop dr (n + 1)).2 := fun n =>
    le_add_of_nonneg_right (hinc n)
  refine ⟨hdeg, fun n => rfl, hinc, fun m n hmn => ?_⟩
  induction n with
  | zero =>
      rw [Nat.le_zero.mp hmn]
  | succ k ih =>
      rcases eq_or_lt_of_le hmn with he | hlt
      · rw [he]
      · exact le_trans (ih (Nat.lt_succ_iff.mp hlt)) (hstep k)

/-- Witness for C7 at `dr = 0.012`, instantiated over all flight
counts. -/
theorem nowash_cumulative_burn_monotone_witness :
    (0 : ℚ) ≤ 12 / 1000 ∧
    ((∀ n, 0 ≤ (burnLoop (12 / 1000) n).1) ∧
     (∀ n, (burnLoop (12 / 1000) (n + 1)).2 =
         (burnLoop (12 / 1000) n).2 + (1 + (burnLoop (12 / 1000) n).1 / 100)) ∧
     (∀ n, 0 ≤ 1 + (burnLoop (12 / 1000) n).1 / 100) ∧
     (∀ m n, m ≤ n →
       (burnLoop (12 / 1000) m).2 ≤ (burnLoop (12 / 1000) n).2)) :=
  ⟨by norm_num, nowash_cumulative_burn_monotone (12 / 1000) (by norm_num)⟩

/-- C9: a candidate interval strictly greater than `flights_per_year`
yields zero washes, zero wash cost, a fuel cost equal to the baseline
cost, and a net saving of exactly zero. -/
theorem large_interval_zero_net_saving (p : Params) (iv : ℕ)
    (h : p.flights_per_year < iv) :
    n_washes p iv = 0 ∧ total_wash_cost p iv = 0 ∧
    fuel_cost p iv = baseline_cost p ∧ net_saving p iv = 0 := by
  have hw := washLoop_eq_burnLoop p.degradation_rate p.recovery_factor iv
    p.flights_per_year h
  have h0 : n_washes p iv = 0 := Nat.div_eq_of_lt h
  have h1 : total_wash_cost p iv = 0 := by
    rw [total_wash_cost, h0]
    simp
  have h2 : fuel_cost p iv = baseline_cost p := by
    rw [fuel_cost, fuel_kg, hw, baseline_cost, baseline_fuel_kg]
  have h3 : net_saving p iv = 0 := by
    rw [net_saving, h1, h2]
    ring
  exact ⟨h0, h1, h2, h3⟩

/-- Witness for C9 at the default parameters (25 flights) and
interval 30. -/
theorem large_interval_zero_net_saving_witness :
    pW.flights_per_year < 30 ∧
    (n_washes pW 30 = 0 ∧ total_wash_cost pW 30 = 0 ∧
     fuel_cost pW 30 = baseline_cost pW ∧ net_saving pW 30 = 0) :=
  ⟨by decide, large_interval_zero_net_saving pW 30 (by decide)⟩

/-- Unfolding of one no-wash trajectory iteration. -/
theorem effNoLoop_succ (dr : ℚ) (n : ℕ) :
    effNoLoop dr (n + 1) =
      ((effNoLoop dr n).1 ++ [100 - (effNoLoop dr n).2],
       (effNoLoop dr n).2 + dr) := rfl

/-- Unfolding of one washed trajectory iteration. -/
theorem effWashLoop_succ (dr rf : ℚ) (iv n : ℕ) :
    effWashLoop dr rf iv (n + 1) =
      ((effWashLoop dr rf iv n).1 ++ [100 - (effWashLoop dr rf iv n).2],
       if (n + 1) % iv = 0 then ((effWashLoop dr rf iv n).2 + dr) * (1 - rf)
       else (effWashLoop dr rf iv n).2 + dr) := rfl

/-- The no-wash trajectory records one value per flight. -/
theorem effNoLoop_length (dr : ℚ) : ∀ n, ((effNoLoop dr n).1).length = n := by
  intro n
  induction n with
  | zero => rfl
  | succ k ih =>
    rw [effNoLoop_succ, List.length_append, ih]
    rfl

/-- The washed trajectory records one value per flight. -/
theorem effWashLoop_length (dr rf : ℚ) (iv : ℕ) :
    ∀ n, ((effWashLoop dr rf iv n).1).length = n := by
  intro n
  induction n with
  | zero => rfl
  | succ k ih =>
    rw [effWashLoop_succ, List.length_append, ih]
    rfl

/-- Entry `c` of the no-wash trajectory is `100 - deg` with `deg` the
state entering flight `c`. -/
theorem effNoLoop_getD (dr : ℚ) :
    ∀ n c, c < n → ((effNoLoop dr n).1).getD c 0 = 100 - (effNoLoop dr c).2 := by
  intro n
  induction n with
  | zero => intro c hc; exact absurd hc (Nat.not_lt_zero c)
  | succ k ih =>
    intro c hc
    rw [effNoLoop_succ]
    rcases Nat.lt_succ_iff_lt_or_eq.mp hc with h | h
    · rw [List.getD_append _ _ _ _ (by rw [effNoLoop_length]; exact h)]
      exact ih c h
    · subst h
      rw [List.getD_append_right _ _ _ _ (by rw [effNoLoop_length])]
      rw [effNoLoop_length, Nat.sub_self]
      rfl

/-- Entry `c` of the washed trajectory is `100 - deg` with `deg` the
state entering flight `c`. -/
theorem effWashLoop_getD (dr rf : ℚ) (iv : ℕ) :
    ∀ n c, c < n →
      ((effWashLoop dr rf iv n).1).getD c 0 = 100 - (effWashLoop dr rf iv c).2 := by
  intro n
  induction n with
  | zero => intro c hc; exact absurd hc (Nat.not_lt_zero c)
  | succ k ih =>
    intro c hc
    rw [effWashLoop_succ]
    rcases Nat.lt_succ_iff_lt_or_eq.mp hc with h | h
    · rw [List.getD_append _ _ _ _ (by rw [effWashLoop_length]; exact h)]
      exact ih c h
    · subst h
      rw [List.getD_append_right _ _ _ _ (by rw [effWashLoop_length])]
      rw [effWashLoop_length, Nat.sub_self]
      rfl

/-- C4: each policy trajectory (no-wash, fixed
`interval_two = max(flights_per_year // 2, 1)`, optimized interval) has
exactly `flights_per_year` elements, its value at index 0 is 100, and
its value at every index `c` is `100 - deg` with `deg` the accumulated
degradation state entering flight `c` under that policy. -/
theorem trajectories_shape (p : Params) (m : ℕ) (h : 0 < p.flights_per_year) :
    ((eff_no p).length = p.flights_per_year ∧
     (eff_two p).length = p.flights_per_year ∧
     (eff_opt p m).length = p.flights_per_year) ∧
    ((eff_no p).getD 0 0 = 100 ∧ (eff_two p).getD 0 0 = 100 ∧
     (eff_opt p m).getD 0 0 = 100) ∧
    (∀ c, c < p.flights_per_year →
      (eff_no p).getD c 0 = 100 - (effNoLoop p.degradation_rate c).2 ∧
      (eff_two p).getD c 0 =
        100 - (effWashLoop p.degradation_rate p.recovery_factor (interval_two p) c).2 ∧
      (eff_opt p m).getD c 0 =
        100 - (effWashLoop p.degradation_rate p.recovery_factor (opt_interval p m) c).2) := by
  refine ⟨⟨effNoLoop_length _ _, effWashLoop_length _ _ _ _, effWashLoop_length _ _ _ _⟩,
    ⟨?_, ?_, ?_⟩, fun c hc => ⟨effNoLoop_getD _ _ c hc, effWashLoop_getD _ _ _ _ c hc,
      effWashLoop_getD _ _ _ _ c hc⟩⟩
  · rw [eff_no, effNoLoop_getD _ _ 0 h]
    norm_num [effNoLoop]
  · rw [eff_two, effWashLoop_getD _ _ _ _ 0 h]
    norm_num [effWashLoop]
  · rw [eff_opt, effWashLoop_getD _ _ _ _ 0 h]
    norm_num [effWashLoop]

/-- Witness for C4 at the default parameters and `max_interval = 40`. -/
theorem trajectories_shape_witness :
    0 < pW.flights_per_year ∧
    (((eff_no pW).length = pW.flights_per_year ∧
      (eff_two pW).length = pW.flights_per_year ∧
      (eff_opt pW 40).length = pW.flights_per_year) ∧
     ((eff_no pW).getD 0 0 = 100 ∧ (eff_two pW).getD 0 0 = 100 ∧
      (eff_opt pW 40).getD 0 0 = 100) ∧
     (∀ c, c < pW.flights_per_year →
       (eff_no pW).getD c 0 = 100 - (effNoLoop pW.degradation_rate c).2 ∧
       (eff_two pW).getD c 0 =
         100 - (effWashLoop pW.degradation_rate pW.recovery_factor (interval_two pW) c).2 ∧
       (eff_opt pW 40).getD c 0 =
         100 - (effWashLoop pW.degradation_rate pW.recovery_factor (opt_interval pW 40) c).2)) :=
  ⟨by decide, trajectories_shape pW 40 (by decide)⟩

/-- C5: the fuel-flow ΔSFC derivation is exactly
`(flow_pre - flow_post) / flow_pre * 100`, and at
`flow_pre = 1250`, `flow_post = 1230` it is exactly 1.6 = 8/5. -/
theorem dSFC_flows_spec (flow_pre flow_post : ℚ) (h : 0 < flow_pre) :
    dSFC_flows flow_pre flow_post = (flow_pre - flow_post) / flow_pre * 100 ∧
    dSFC_flows 1250 1230 = 8 / 5 :=
  ⟨rfl, by norm_num [dSFC_flows]⟩

/-- Witness for C5 at `flow_pre = 1250 > 0`, `flow_post = 1230`. -/
theorem dSFC_flows_spec_witness :
    (0 : ℚ) < 1250 ∧
    (dSFC_flows 1250 1230 = (1250 - 1230) / 1250 * 100 ∧
     dSFC_flows 1250 1230 = 8 / 5) :=
  ⟨by norm_num, dSFC_flows_spec 1250 1230 (by norm_num)⟩

/-- C6: the EGT-heuristic ΔSFC derivation is exactly
`0.08 × (egt_before - egt_after)`; at 630/620 it is exactly 0.8 = 4/5,
and with the readings swapped the negative value -0.8 is passed through
unclamped. -/
theorem dSFC_egt_spec :
    (∀ b a : ℚ, dSFC_egt b a = 8 / 100 * (b - a)) ∧
    dSFC_egt 630 620 = 4 / 5 ∧
    dSFC_egt 620 630 = -(4 / 5) ∧
    dSFC_egt 620 630 < 0 :=
  ⟨fun _ _ => rfl, by norm_num [dSFC_egt], by norm_num [dSFC_egt],
   by norm_num [dSFC_egt]⟩

/-- C8: a fleet dataset missing `Aircraft_ID` or `Month`, or lacking
both a `ΔSFC` column and the `Fuel_Flow_Pre`/`Fuel_Flow_Post` pair,
makes the fleet page stop with one of its two descriptive error
messages and never reach the aggregation/heatmap stage. -/
theorem fleet_missing_columns_fail (cols : List String)
    (h : "Aircraft_ID" ∉ cols ∨ "Month" ∉ cols ∨
      ("ΔSFC" ∉ cols ∧ ("Fuel_Flow_Pre" ∉ cols ∨ "Fuel_Flow_Post" ∉ cols))) :
    (fleetValidate cols =
        FleetOutcome.failed "Dataset must include columns: Aircraft_ID and Month." ∨
     fleetValidate cols =
        FleetOutcome.failed
          "Dataset must include ΔSFC or (Fuel_Flow_Pre & Fuel_Flow_Post) to compute it.") ∧
    fleetValidate cols ≠ FleetOutcome.proceed := by
  by_cases h1 : "Aircraft_ID" ∈ cols ∧ "Month" ∈ cols
  · have hd : "ΔSFC" ∉ cols ∧ ("Fuel_Flow_Pre" ∉ cols ∨ "Fuel_Flow_Post" ∉ cols) := by
      rcases h with h | h | h
      · exact absurd h1.1 h
      · exact absurd h1.2 h
      · exact h
    have hc2 : ¬("ΔSFC" ∉ cols ∧ "Fuel_Flow_Pre" ∈ cols ∧ "Fuel_Flow_Post" ∈ cols) := by
      rintro ⟨-, hpre, hpost⟩
      rcases hd.2 with hh | hh
      · exact hh hpre
      · exact hh hpost
    have hval : fleetValidate cols =
        FleetOutcome.failed
          "Dataset must include ΔSFC or (Fuel_Flow_Pre & Fuel_Flow_Post) to compute it." := by
      simp only [fleetValidate]
      rw [if_pos h1, if_neg hc2, if_neg hd.1]
    rw [hval]
    exact ⟨Or.inr rfl, fun he => FleetOutcome.noConfusion he⟩
  · have hval : fleetValidate cols =
        FleetOutcome.failed "Dataset must include columns: Aircraft_ID and Month." := by
      simp only [fleetValidate]
      rw [if_neg h1]
    rw [hval]
    exact ⟨Or.inl rfl, fun he => FleetOutcome.noConfusion he⟩

/-- Witness for C8 at the concrete column set `["Month"]`, which lacks
`Aircraft_ID`. -/
theorem fleet_missing_columns_fail_witness :
    ("Aircraft_ID" ∉ (["Month"] : List String) ∨ "Month" ∉ (["Month"] : List String) ∨
      ("ΔSFC" ∉ (["Month"] : List String) ∧
        ("Fuel_Flow_Pre" ∉ (["Month"] : List String) ∨
         "Fuel_Flow_Post" ∉ (["Month"] : List String)))) ∧
    ((fleetValidate ["Month"] =
        FleetOutcome.failed "Dataset must include columns: Aircraft_ID and Month." ∨
      fleetValidate ["Month"] =
        FleetOutcome.failed
          "Dataset must include ΔSFC or (Fuel_Flow_Pre & Fuel_Flow_Post) to compute it.") ∧
     fleetValidate ["Month"] ≠ FleetOutcome.proceed) :=
  ⟨Or.inl (by decide), fleet_missing_columns_fail ["Month"] (Or.inl (by decide))⟩

/-- C10 as stated is false: this dataset has a `Fuel_Flow_Pre` column
(mean 1000) and no `Fuel_Flow_Post` column, so it does not contain both
columns and ΔSFC falls back to 1.6 — but the pre-wash mean used is the
column's actual mean 1000, not the default 1250. -/
theorem qar_fallback_counterexample :
    (QarData.mk (some [1000]) none).post = none ∧
    qar_dSFC (QarData.mk (some [1000]) none) = 8 / 5 ∧
    qar_fuel_flow_pre (QarData.mk (some [1000]) none) = 1000 ∧
    qar_fuel_flow_pre (QarData.mk (some [1000]) none) ≠ 1250 := by
  have hm : qar_fuel_flow_pre (QarData.mk (some [1000]) none) = 1000 := by
    show listMean [1000] = 1000
    norm_num [listMean]
  refine ⟨rfl, rfl, hm, ?_⟩
  rw [hm]
  norm_num

/-- C10 amended: when the uploaded dataset does not contain both
fuel-flow columns the dashboard does not fail: ΔSFC is silently set to
the constant 1.6 and each individually absent fuel-flow column falls
back to its default single-row series (mean 1250 for pre, 1230 for
post), while a present column contributes its actual mean; the KPI,
optimizer and trajectory computation then proceed on these values. -/
theorem qar_fallback (d : QarData) (h : d.pre = none ∨ d.post = none) :
    qar_dSFC d = 8 / 5 ∧
    (d.pre = none → qar_fuel_flow_pre d = 1250) ∧
    (d.post = none → qar_fuel_flow_post d = 1230) ∧
    (∀ l, d.pre = some l → qar_fuel_flow_pre d = listMean l) ∧
    (∀ l, d.post = some l → qar_fuel_flow_post d = listMean l) := by
  obtain ⟨pre, post⟩ := d
  have hmean1250 : listMean [1250] = 1250 := by norm_num [listMean]
  have hmean1230 : listMean [1230] = 1230 := by norm_num [listMean]
  refine ⟨?_, fun hp => ?_, fun hq => ?_, fun l hl => ?_, fun l hl => ?_⟩
  · rcases h with h | h
    · have hp : pre = none := h
      subst hp
      rfl
    · have hq : post = none := h
      subst hq
      cases pre <;> rfl
  · have hp2 : pre = none := hp
    subst hp2
    exact hmean1250
  · have hq2 : post = none := hq
    subst hq2
    exact hmean1230
  · have hl2 : pre = some l := hl
    subst hl2
    rfl
  · have hl2 : post = some l := hl
    subst hl2
    rfl

/-- Witness for the amended C10 at a dataset with neither fuel-flow
column. -/
theorem qar_fallback_witness :
    ((QarData.mk none none).pre = none ∨ (QarData.mk none none).post = none) ∧
    (qar_dSFC (QarData.mk none none) = 8 / 5 ∧
     ((QarData.mk none none).pre = none → qar_fuel_flow_pre (QarData.mk none none) = 1250) ∧
     ((QarData.mk none none).post = none → qar_fuel_flow_post (QarData.mk none none) = 1230) ∧
     (∀ l, (QarData.mk none none).pre = some l →
       qar_fuel_flow_pre (QarData.mk none none) = listMean l) ∧
     (∀ l, (QarData.mk none none).post = some l →
       qar_fuel_flow_post (QarData.mk none none) = listMean l)) :=
  ⟨Or.inl rfl, qar_fallback (QarData.mk none none) (Or.inl rfl)⟩

end JetSupport
